import Mathlib

/-!
Shallow embedding of `lib/client/client.go` (Teleport client core):
the proxy-to-node credential trial loop (`ConnectToNode`), cluster
selection (`getSite`), session creation (`newSession`), the resize
synchronization loop (`updateTerminalSize`), shell startup (`Shell`),
the file-transfer error reconciliation (`scp`), and the port-forward
relay (`listenAndForward`).

External collaborators (the ssh library, the relay, the OS terminal)
are modelled as oracle inputs: each call into a collaborator that can
fail or return data is a parameter of the embedded function, and the
side effects the code performs are collected in an explicit event
trace, so the control flow of the Go source is reproduced exactly.
-/

namespace Teleport

/-! ## ConnectToNode: the credential trial loop -/

/-- Outcome of one iteration of the auth-method loop in `ConnectToNode`,
as decided by the external collaborators: opening the proxy session or
one of its pipes can fail, the `proxy:<addr>` subsystem request can fail,
and the `ssh.NewClientConn` negotiation can succeed, fail with a
handshake-failed (credential rejected) error, or fail otherwise. -/
inductive AttemptOutcome where
  | sessionSetupErr : AttemptOutcome
  | subsystemErr : AttemptOutcome
  | handshakeRejected : AttemptOutcome
  | otherNegotiationErr : AttemptOutcome
  | success (connId : Nat) : AttemptOutcome
deriving DecidableEq, Repr

/-- Errors `ConnectToNode` can return.  `trace.Wrap` preserves the
identity of the wrapped error, so wrapping is baked into the
constructors; `utils.IsHandshakeFailedError` holds exactly of a wrapped
handshake-failed negotiation error.  Constructors record the index of
the auth method whose attempt produced the error. -/
inductive CErr where
  /-- The placeholder `trace.Errorf("unknown Error")`, initial value of `e`. -/
  | unknownError : CErr
  /-- Case where `ssh.NewClientConn` failed and `utils.IsHandshakeFailedError` holds. -/
  | handshakeFailed (method : Nat) : CErr
  /-- Case where `ssh.NewClientConn` failed with any other error. -/
  | negotiationFatal (method : Nat) : CErr
  /-- Case where `NewSession`, `StdinPipe`, `StdoutPipe` or `StderrPipe` failed. -/
  | sessionSetup (method : Nat) : CErr
  /-- Case where `RequestSubsystem("proxy:"+addr)` failed:
  `Failed connecting to cluster <site>`. -/
  | clusterConnect (siteName : String) (method : Nat) : CErr
  /-- The error `access denied to login "<user>" when connecting to <addr>: <inner>`. -/
  | accessDenied (user : String) (addr : String) (inner : CErr) : CErr
deriving DecidableEq, Repr

/-- Predicate `utils.IsHandshakeFailedError` on the running error `e`. -/
def isHandshakeFailedError : CErr → Bool
  | .handshakeFailed _ => true
  | _ => false

/-- The `NodeClient` as returned by `ConnectToNode`: it wraps the negotiated
ssh connection (identified by the oracle connection id). -/
structure NodeClient where
  connId : Nat
deriving DecidableEq, Repr

/-- Recognizer for the access-denied error shape, used to state that a
returned error is not an access-denied one. -/
def CErr.isAccessDenied : CErr → Bool
  | .accessDenied _ _ _ => true
  | _ => false

/-- Observable events of the trial loop: an attempt on method `k`
started (a fresh proxy session was opened for it), and the session of
attempt `k` was closed (only done on a handshake-failed negotiation). -/
inductive ConnectEvent where
  | attemptStarted (method : Nat) : ConnectEvent
  | sessionClosed (method : Nat) : ConnectEvent
deriving DecidableEq, Repr

/-- Computes `strings.Split(nodeAddress, "@")[0]` — the node
address with its `@<cluster>` routing part stripped. -/
def stripClusterPart (addr : String) : String :=
  (addr.splitOn "@").headD ""

/-- Computes `strings.Split(nodeAddress, "@")[len-1]` —
the cluster (site) name used in the subsystem-failure error. -/
def siteNameOf (addr : String) : String :=
  (addr.splitOn "@").getLastD ""

/-- The `for _, authMethod := range proxy.authMethods` loop of
`ConnectToNode` (client.go lines 194-258), one outcome per configured
auth method, `k` the index of the current method, `e` the running error
(initially `unknown Error`).  Returns the result together with the
event trace. -/
def connectLoop (user addr : String) (outcomes : List AttemptOutcome)
    (k : Nat) (e : CErr) : Except CErr NodeClient × List ConnectEvent :=
  match outcomes with
  | [] =>
    if isHandshakeFailedError e then
      (.error (.accessDenied user (stripClusterPart addr) e), [])
    else
      (.error e, [])
  | o :: rest =>
    match o with
    | .sessionSetupErr => (.error (.sessionSetup k), [.attemptStarted k])
    | .subsystemErr =>
        (.error (.clusterConnect (siteNameOf addr) k), [.attemptStarted k])
    | .otherNegotiationErr =>
        (.error (.negotiationFatal k), [.attemptStarted k])
    | .handshakeRejected =>
        let r := connectLoop user addr rest (k + 1) (.handshakeFailed k)
        (r.1, .attemptStarted k :: .sessionClosed k :: r.2)
    | .success c => (.ok ⟨c⟩, [.attemptStarted k])

/-- Entry point `ConnectToNode` after both addresses parsed successfully: runs the
trial loop from method index `0` with `e = unknown Error`. -/
def connectToNode (user addr : String) (outcomes : List AttemptOutcome) :
    Except CErr NodeClient × List ConnectEvent :=
  connectLoop user addr outcomes 0 .unknownError

/-- The per-attempt events of `k` consecutive rejected attempts starting
at method index `j`: each attempt is started and its session closed, in
method order. -/
def rejectedEvents (j k : Nat) : List ConnectEvent :=
  (List.range' j k).flatMap fun i => [.attemptStarted i, .sessionClosed i]

lemma connectLoop_cons_rejected (user addr : String)
    (rest : List AttemptOutcome) (j : Nat) (e : CErr) :
    connectLoop user addr (.handshakeRejected :: rest) j e =
      ((connectLoop user addr rest (j + 1) (.handshakeFailed j)).1,
        .attemptStarted j :: .sessionClosed j ::
          (connectLoop user addr rest (j + 1) (.handshakeFailed j)).2) := rfl

lemma rejectedEvents_succ (j k : Nat) :
    rejectedEvents j (k + 1) =
      .attemptStarted j :: .sessionClosed j :: rejectedEvents (j + 1) k := by
  simp [rejectedEvents, List.range'_succ]

lemma connectLoop_rep_success (user addr : String) (c : Nat)
    (rest : List AttemptOutcome) :
    ∀ (k j : Nat) (e : CErr),
      connectLoop user addr
        (List.replicate k .handshakeRejected ++ .success c :: rest) j e =
      (.ok ⟨c⟩, rejectedEvents j k ++ [.attemptStarted (j + k)]) := by
  intro k
  induction k with
  | zero =>
      intro j e
      simp [connectLoop, rejectedEvents]
  | succ n ih =>
      intro j e
      have h := ih (j + 1) (.handshakeFailed j)
      rw [List.replicate_succ, List.cons_append]
      simp only [connectLoop, h, rejectedEvents_succ]
      simp [Nat.add_assoc, Nat.add_comm 1 n]

lemma connectLoop_rep_fatal (user addr : String)
    (rest : List AttemptOutcome) :
    ∀ (k j : Nat) (e : CErr),
      connectLoop user addr
        (List.replicate k .handshakeRejected ++ .otherNegotiationErr :: rest) j e =
      (.error (.negotiationFatal (j + k)),
        rejectedEvents j k ++ [.attemptStarted (j + k)]) := by
  intro k
  induction k with
  | zero =>
      intro j e
      simp [connectLoop, rejectedEvents]
  | succ n ih =>
      intro j e
      have h := ih (j + 1) (.handshakeFailed j)
      rw [List.replicate_succ, List.cons_append]
      simp only [connectLoop, h, rejectedEvents_succ]
      simp [Nat.add_assoc, Nat.add_comm 1 n]

lemma connectLoop_rep_all (user addr : String) :
    ∀ (k j : Nat) (e : CErr),
      connectLoop user addr
        (List.replicate (k + 1) .handshakeRejected) j e =
      (.error (.accessDenied user (stripClusterPart addr)
          (.handshakeFailed (j + k))),
        rejectedEvents j (k + 1)) := by
  intro k
  induction k with
  | zero =>
      intro j e
      simp [connectLoop, isHandshakeFailedError, rejectedEvents_succ,
        rejectedEvents]
  | succ n ih =>
      intro j e
      rw [List.replicate_succ, connectLoop_cons_rejected,
        ih (j + 1) (.handshakeFailed j), rejectedEvents_succ j (n + 1)]
      simp [Nat.add_assoc, Nat.add_comm 1 n]

/-- C1: `ConnectToNode` tries the configured auth methods strictly in
order, one attempt at a time.  If the first `k` methods are rejected at
the secured-handshake negotiation (handshake-failed), each of those
attempts' sessions is closed and the next method is tried; if the
`k`-th (0-based) method then succeeds, a `NodeClient` wrapping that
negotiated connection is returned and no earlier method's error is
surfaced, while if the `k`-th method fails with any other negotiation
error that error is returned immediately and no further method is
attempted.  The event trace `rejectedEvents 0 k ++ [attemptStarted k]`
records exactly attempts `0, 1, …, k` in order, with a session close
after each rejected attempt and nothing after attempt `k`. -/
theorem connectToNode_trial_loop (user addr : String) (k c : Nat)
    (rest : List AttemptOutcome) :
    (connectToNode user addr
        (List.replicate k .handshakeRejected ++ .success c :: rest) =
      (.ok ⟨c⟩, rejectedEvents 0 k ++ [.attemptStarted k])) ∧
    (connectToNode user addr
        (List.replicate k .handshakeRejected ++ .otherNegotiationErr :: rest) =
      (.error (.negotiationFatal k),
        rejectedEvents 0 k ++ [.attemptStarted k])) := by
  constructor
  · simpa using connectLoop_rep_success user addr c rest k 0 .unknownError
  · simpa using connectLoop_rep_fatal user addr rest k 0 .unknownError

/-- C2: when every configured auth method (at least one) fails with a
credential-rejection (handshake-failed) error, `ConnectToNode` returns
an access-denied error naming the login user and the target address
with its `@<cluster>` routing part stripped — the substring of the
address before the first `@`, i.e. `strings.Split(nodeAddress, "@")[0]`
— wrapping the last rejection. -/
theorem connectToNode_all_rejected (user addr : String) (k : Nat) :
    connectToNode user addr (List.replicate (k + 1) .handshakeRejected) =
      (.error (.accessDenied user ((addr.splitOn "@").headD "")
          (.handshakeFailed k)),
        rejectedEvents 0 (k + 1)) := by
  simpa [stripClusterPart] using
    connectLoop_rep_all user addr k 0 .unknownError

/-- C9: with an empty auth-method list (and both addresses parsed), the
loop body never runs, no connection attempt is made, and the initial
placeholder error `unknown Error` is returned as-is — it is not a
handshake-failed error, so the access-denied branch is not taken. -/
theorem connectToNode_empty_methods (user addr : String) :
    connectToNode user addr [] = (.error .unknownError, []) ∧
    CErr.isAccessDenied CErr.unknownError = false :=
  ⟨rfl, rfl⟩

/-! ## getSite: cluster selection -/

/-- The record `services.Site`, as far as selection needs it: its name (the rest of
the record is routing identity the relay reports, irrelevant here). -/
structure Site where
  name : String
deriving DecidableEq, Repr

/-- The `trace.NotFound` errors `getSite` can produce. -/
inductive SiteErr where
  /-- The error `no sites registered`. -/
  | noSitesRegistered : SiteErr
  /-- The error `site <name> not found`. -/
  | siteNotFound (name : String) : SiteErr
deriving DecidableEq, Repr

/-- The function `getSite` (client.go lines 64-81), given the cluster list the relay
returned from `GetSites`: empty list is `NotFound`; empty configured
`siteName` selects `sites[0]`; otherwise the first record whose name
equals `siteName`, or `NotFound` naming it. -/
def getSite (siteName : String) (sites : List Site) : Except SiteErr Site :=
  match sites with
  | [] => .error .noSitesRegistered
  | s :: rest =>
    if siteName = "" then .ok s
    else
      match (s :: rest).find? (fun t => t.name == siteName) with
      | some t => .ok t
      | none => .error (.siteNotFound siteName)

/-- C4: cluster selection over the list returned by the relay — an empty
list fails not-found whatever name is configured; a non-empty list with
no configured name yields the first record; a configured name yields the
first record carrying exactly that name when one exists, and a not-found
error naming the requested name when none does. -/
theorem getSite_spec (name : String) (sites : List Site) :
    (sites = [] → getSite name sites = .error .noSitesRegistered) ∧
    (∀ s rest, sites = s :: rest → name = "" → getSite name sites = .ok s) ∧
    (sites ≠ [] → name ≠ "" →
      ((∃ t, t ∈ sites ∧ t.name = name ∧ getSite name sites = .ok t) ∨
        ((∀ t ∈ sites, t.name ≠ name) ∧
          getSite name sites = .error (.siteNotFound name)))) := by
  refine ⟨?_, ?_, ?_⟩
  · rintro rfl
    rfl
  · rintro s rest rfl rfl
    rfl
  · intro hne hname
    match sites with
    | [] => exact absurd rfl hne
    | s :: rest =>
      cases hfind : (s :: rest).find? (fun t => t.name == name) with
      | some t =>
          left
          refine ⟨t, List.mem_of_find?_eq_some hfind, ?_, ?_⟩
          · have := List.find?_some hfind
            simpa using this
          · simp [getSite, hname, hfind]
      | none =>
          right
          constructor
          · intro t ht
            have := List.find?_eq_none.mp hfind t ht
            simpa using this
          · simp [getSite, hname, hfind]

/-- Witness for C4 at concrete inputs: selecting the name `"b"` among
`[a, b]` returns the `b` record. -/
theorem getSite_spec_witness :
    ∃ t, t ∈ [Site.mk "a", Site.mk "b"] ∧ t.name = "b" ∧
      getSite "b" [Site.mk "a", Site.mk "b"] = .ok t := by
  have h := (getSite_spec "b" [Site.mk "a", Site.mk "b"]).2.2
    (by decide) (by decide)
  rcases h with h | h
  · exact h
  · exact absurd rfl (h.1 (Site.mk "b") (by decide))

/-! ## listenAndForward: the port-forward relay -/

/-- Observable events of one `proxyConnection` handler: a dial attempt
numbered `n` (1-based, as in the source), and a `time.Sleep` of `ms`
milliseconds after a failed attempt. -/
inductive FwdEvent where
  | dialAttempt (n : Nat) : FwdEvent
  | sleepMs (ms : Nat) : FwdEvent
deriving DecidableEq, Repr

/-- The `for attempt := 1; attempt <= 5; attempt++` dial loop of
`proxyConnection` (client.go lines 625-635).  `dial n` is the oracle for
whether `client.Client.Dial` succeeds on attempt `n`; `attempt` is the
current attempt number and `fuel` the number of loop iterations left.
Returns whether a connection was established, with the event trace: each
failed attempt is followed by `time.Sleep(100ms * attempt)` before the
loop continues, and a successful attempt breaks out immediately. -/
def dialLoop (dial : Nat → Bool) (attempt fuel : Nat) :
    Bool × List FwdEvent :=
  match fuel with
  | 0 => (false, [])
  | f + 1 =>
    if dial attempt then (true, [.dialAttempt attempt])
    else
      let r := dialLoop dial (attempt + 1) f
      (r.1, .dialAttempt attempt :: .sleepMs (100 * attempt) :: r.2)

/-- One `proxyConnection` handler: 5 dial attempts starting at attempt
number 1; when the result is `false` the handler logs and returns,
abandoning only this connection. -/
def proxyConnection (dial : Nat → Bool) : Bool × List FwdEvent :=
  dialLoop dial 1 5

/-- The accept loop of `listenAndForward` (client.go lines 658-665):
each accepted connection (`some dial`, carrying that connection's dial
oracle) is handed to its own `proxyConnection` handler and the loop
moves on regardless of the handler's outcome; an `Accept` error
(`none`) breaks the loop. -/
def listenAndForward (accepts : List (Option (Nat → Bool))) :
    List (Bool × List FwdEvent) :=
  match accepts with
  | [] => []
  | none :: _ => []
  | some dial :: rest => proxyConnection dial :: listenAndForward rest

/-- Whether an event is a dial attempt. -/
def FwdEvent.isDial : FwdEvent → Bool
  | .dialAttempt _ => true
  | .sleepMs _ => false

lemma dialLoop_count_le (dial : Nat → Bool) :
    ∀ (fuel attempt : Nat),
      ((dialLoop dial attempt fuel).2.countP FwdEvent.isDial) ≤ fuel := by
  intro fuel
  induction fuel with
  | zero => intro attempt; simp [dialLoop]
  | succ f ih =>
      intro attempt
      by_cases h : dial attempt = true
      · simp [dialLoop, h, List.countP_cons, FwdEvent.isDial]
      · have hc := ih (attempt + 1)
        simp [dialLoop, h, List.countP_cons, FwdEvent.isDial]
        omega

lemma dialLoop_first_success (dial : Nat → Bool) :
    ∀ (k attempt fuel : Nat), k < fuel →
      dial (attempt + k) = true → (∀ j < k, dial (attempt + j) = false) →
      dialLoop dial attempt fuel =
        (true,
          ((List.range' attempt k).flatMap fun i =>
            [.dialAttempt i, .sleepMs (100 * i)]) ++
          [.dialAttempt (attempt + k)]) := by
  intro k
  induction k with
  | zero =>
      intro attempt fuel hf hs _
      match fuel, hf with
      | f + 1, _ =>
        simp only [Nat.add_zero] at hs
        simp [dialLoop, hs]
  | succ n ih =>
      intro attempt fuel hf hs hfail
      match fuel, hf with
      | f + 1, hf =>
        have h0 : dial attempt = false := by
          simpa using hfail 0 (Nat.succ_pos n)
        have hrec := ih (attempt + 1) f (by omega)
          (by simpa [Nat.add_assoc, Nat.add_comm 1 n] using hs)
          (by
            intro j hj
            have := hfail (j + 1) (by omega)
            simpa [Nat.add_assoc, Nat.add_comm 1 j] using this)
        simp only [dialLoop, h0, if_false, Bool.false_eq_true, hrec,
          List.range'_succ, List.flatMap_cons, List.cons_append,
          List.append_assoc]
        simp [Nat.add_assoc, Nat.add_comm 1 n]

/-- C3: retry policy of the port-forward relay.  For any connection's
dial oracle: (a) its handler performs at most 5 dial attempts; (b) if
every attempt fails, the trace is exactly attempts 1..5 each followed by
a `100ms * attempt` backoff sleep, the connection is not established
(the handler logs and returns, abandoning only this connection), and the
accept loop still runs the handlers of all subsequently accepted
connections; (c) if attempt `k` (1 ≤ k ≤ 5) is the first to succeed, the
trace stops at attempt `k`: no further dial attempt is made. -/
theorem listenAndForward_retry_policy (dial : Nat → Bool)
    (rest : List (Option (Nat → Bool))) :
    ((proxyConnection dial).2.countP FwdEvent.isDial ≤ 5) ∧
    ((∀ n, dial n = false) →
      proxyConnection dial =
        (false, [.dialAttempt 1, .sleepMs 100, .dialAttempt 2, .sleepMs 200,
          .dialAttempt 3, .sleepMs 300, .dialAttempt 4, .sleepMs 400,
          .dialAttempt 5, .sleepMs 500])) ∧
    (listenAndForward (some dial :: rest) =
      proxyConnection dial :: listenAndForward rest) ∧
    (∀ k, 1 ≤ k → k ≤ 5 → dial k = true → (∀ j, 1 ≤ j → j < k → dial j = false) →
      proxyConnection dial =
        (true,
          ((List.range' 1 (k - 1)).flatMap fun i =>
            [.dialAttempt i, .sleepMs (100 * i)]) ++
          [.dialAttempt k])) := by
  refine ⟨dialLoop_count_le dial 5 1, ?_, rfl, ?_⟩
  · intro h
    simp [proxyConnection, dialLoop, h]
  · intro k h1 h5 hk hfail
    have := dialLoop_first_success dial (k - 1) 1 5 (by omega)
      (by
        have hx : 1 + (k - 1) = k := by omega
        rw [hx]; exact hk)
      (by
        intro j hj
        exact hfail (1 + j) (by omega) (by omega))
    rw [proxyConnection, this]
    have hx : 1 + (k - 1) = k := by omega
    rw [hx]

/-- Witness for C3 at a concrete input: a target that always fails is
dialed exactly 5 times with sleeps 100..500 ms and abandoned, while the
next accepted connection (whose target succeeds at once) is still
served. -/
theorem listenAndForward_retry_policy_witness :
    listenAndForward [some (fun _ => false), some (fun _ => true)] =
      [(false, [.dialAttempt 1, .sleepMs 100, .dialAttempt 2, .sleepMs 200,
        .dialAttempt 3, .sleepMs 300, .dialAttempt 4, .sleepMs 400,
        .dialAttempt 5, .sleepMs 500]),
       (true, [.dialAttempt 1])] := by
  have h2 := (listenAndForward_retry_policy (fun _ => false)
    [some (fun _ => true)]).2.1 (fun _ => rfl)
  have h3 := (listenAndForward_retry_policy (fun _ => false)
    [some (fun _ => true)]).2.2.1
  have h4 := (listenAndForward_retry_policy (fun _ => true) []).2.2.2
    1 (by decide) (by decide) rfl (by intro j hj1 hj2; omega)
  rw [h3, h2]
  rw [show listenAndForward [some (fun _ => true)] =
    proxyConnection (fun _ => true) :: listenAndForward [] from rfl]
  rw [h4]
  rfl


/-! ## newSession: interactive session creation -/

/-- The structure `term.Winsize` (width/height in character cells; the `x`/`y` pixel
fields are unused by this code). -/
structure Winsize where
  width : Nat
  height : Nat
deriving DecidableEq, Repr

/-- The `session.TerminalParams` of a joined session, as reported by the
relay: terminal width `w` and height `h`. -/
structure TerminalParams where
  w : Nat
  h : Nat
deriving DecidableEq, Repr

/-- Modelled from the spec: `session.TerminalParams.Winsize` (the
`session` package is not under `src/`) converts a session's reported
terminal parameters into the terminal window size they describe —
"geometry is inherited from that session's reported parameters". -/
def TerminalParams.winsize (p : TerminalParams) : Winsize :=
  ⟨p.w, p.h⟩

/-- The fields of `session.Session` that `newSession` reads from the
session being joined: its ID and its current terminal parameters. -/
structure JoinSession where
  id : String
  terminalParams : TerminalParams
deriving DecidableEq, Repr

/-- Local-terminal side effects performed by `newSession`: querying the
size of fd 0, putting fd 0 into raw mode, resizing fd 0, and writing to
stdout. -/
inductive TermEvent where
  | getLocalWinsize : TermEvent
  | setRawTerminal : TermEvent
  | setLocalWinsize (size : Winsize) : TermEvent
  | stdoutWrite (s : String) : TermEvent
deriving DecidableEq, Repr

/-- Computes `fmt.Sprintf("\x1b[8;%d;%dt", size.Height, size.Width)` — the xterm
resize escape sequence: height (rows) first, then width (columns). -/
def resizeEscape (size : Winsize) : String :=
  "\x1b[8;" ++ toString size.height ++ ";" ++ toString size.width ++ "t"

/-- Modelled from the spec: `sshutils.SessionEnvVar` (the `sshutils`
package is not under `src/`) is "a fixed environment-variable name
[that] carries the session identifier"; its concrete value is
irrelevant to the claims. -/
def sessionEnvVar : String := "TELEPORT_SESSION"

/-- The `NodeSession` as built by `newSession`: Teleport session ID,
environment to create on the server, whether a real terminal is
attached, and the initial terminal size. -/
structure NodeSession where
  id : String
  env : List (String × String)
  attachedTerm : Bool
  terminalSize : Winsize
deriving DecidableEq, Repr

/-- Performs `ns.env[sshutils.SessionEnvVar] = string(ns.id)` on the (possibly
nil, hence freshly made) environment map. -/
def envWithSession (env : List (String × String)) (id : String) :
    List (String × String) :=
  env ++ [(sessionEnvVar, id)]

/-- The function `newSession` (client.go lines 291-361) up to the server-side session
creation, with the external calls as oracles: `localSize` is what
`term.GetWinsize(0)` reports and `freshId` is what `session.NewID()`
would generate.  The default geometry is 80x25; an attached terminal
reads the local size and enters raw mode; joining an existing session
adopts that session's ID and geometry and, when a terminal is attached,
resizes the local terminal and writes the matching escape sequence to
stdout; a new session gets a fresh ID.  Returns the session state and
the trace of local-terminal effects. -/
def newSession (join : Option JoinSession) (env : List (String × String))
    (attachedTerm : Bool) (localSize : Winsize) (freshId : String) :
    NodeSession × List TermEvent :=
  let size0 : Winsize := ⟨80, 25⟩
  let init : Winsize × List TermEvent :=
    if attachedTerm then
      (localSize, [.getLocalWinsize, .setRawTerminal])
    else
      (size0, [])
  match join with
  | some js =>
    let size2 := js.terminalParams.winsize
    let evs2 : List TermEvent :=
      if attachedTerm then
        [.setLocalWinsize size2, .stdoutWrite (resizeEscape size2)]
      else []
    (⟨js.id, envWithSession env js.id, attachedTerm, size2⟩,
      init.2 ++ evs2)
  | none =>
    (⟨freshId, envWithSession env freshId, attachedTerm, init.1⟩, init.2)

/-- C5: joining an existing session with an attached terminal adopts the
joined session's ID for any generated fresh ID (no fresh identifier is
used), inherits its geometry from the joined session's reported
parameters, and writes the resize escape for that geometry to the local
terminal — concretely `ESC[8;40;120t` for a 120x40 session. -/
theorem newSession_join (js : JoinSession) (env : List (String × String))
    (localSize : Winsize) (freshId : String) :
    (newSession (some js) env true localSize freshId).1.id = js.id ∧
    (newSession (some js) env true localSize freshId).1.terminalSize =
      js.terminalParams.winsize ∧
    (newSession (some js) env true localSize freshId).2 =
      [.getLocalWinsize, .setRawTerminal,
        .setLocalWinsize js.terminalParams.winsize,
        .stdoutWrite (resizeEscape js.terminalParams.winsize)] ∧
    resizeEscape (TerminalParams.winsize ⟨120, 40⟩) = "\x1b[8;40;120t" :=
  ⟨rfl, rfl, rfl, rfl⟩

/-- C10: a newly created (non-joined) session without an attached
terminal has geometry exactly 80x25, gets the fresh ID, and performs no
local-terminal effect whatsoever (the local terminal is neither queried
nor modified), whatever the local terminal size is. -/
theorem newSession_new_detached (env : List (String × String))
    (localSize : Winsize) (freshId : String) :
    newSession none env false localSize freshId =
      (⟨freshId, envWithSession env freshId, false, ⟨80, 25⟩⟩, []) := rfl

/-! ## updateTerminalSize: the resize synchronization loop -/

/-- The fields of `session.Session` the resize loop reads: session ID,
number of parties, and party-reported terminal parameters. -/
structure RemoteSession where
  id : String
  parties : Nat
  terminalParams : TerminalParams
deriving DecidableEq, Repr

/-- Loop-local state of `updateTerminalSize`: `currentSize` is the
local size read at loop start (and re-read in the tick branch) and
`prevSess` the last session record observed by the tick branch. -/
structure ResizeState where
  currentSize : Winsize
  prevSess : Option RemoteSession
deriving DecidableEq, Repr

/-- One iteration of the `select`: the source that fired, with the
oracle results of the external calls that branch makes.  `sigwinch obs`
is a SIGWINCH with `obs` the result of `term.GetWinsize(0)` (`none` =
error); `sigNil` is a nil signal from a closed channel; `tick sess
localNow` is a ticker tick with `sess` the result of
`siteClient.GetSession` (`none` = error, `some none` = nil session) and
`localNow` what `term.GetWinsize(0)` reports in that branch;
`closeSignal` is the close broadcast. -/
inductive ResizeTrigger where
  | sigwinch (obs : Option Winsize) : ResizeTrigger
  | sigNil : ResizeTrigger
  | tick (sess : Option (Option RemoteSession)) (localNow : Winsize) :
      ResizeTrigger
  | closeSignal : ResizeTrigger
deriving DecidableEq, Repr

/-- Remote/local side effects of one loop iteration: a `window-change`
request sent to the server session (width, height), a local terminal
resize, and a stdout write of the resize escape. -/
inductive ResizeAction where
  | sendWindowChange (w h : Nat) : ResizeAction
  | setLocalWinsize (size : Winsize) : ResizeAction
  | stdoutWrite (s : String) : ResizeAction
deriving DecidableEq, Repr

/-- One iteration of the `for { select { ... } }` loop of
`updateTerminalSize` (client.go lines 434-494).  Returns the new state,
the actions performed, and whether the loop continues.

SIGWINCH branch: a nil signal exits; a `GetWinsize` error logs and does
nothing; an observed size equal (height and width) to `currentSize` is
ignored; otherwise a window-change request with the observed size is
sent — and `currentSize` is NOT updated.  Tick branch: a `GetSession`
error does nothing; when the previous or current record is nil, the
record is stored; when the reported parameters are unchanged nothing
happens; otherwise `currentSize` is re-read from the local terminal and
the local terminal is resized (with escape echoed) when it differs from
the reported size, and the record is stored. -/
def resizeStep (st : ResizeState) (ev : ResizeTrigger) :
    ResizeState × List ResizeAction × Bool :=
  match ev with
  | .sigNil => (st, [], false)
  | .sigwinch none => (st, [], true)
  | .sigwinch (some ws) =>
    if ws.height = st.currentSize.height ∧ ws.width = st.currentSize.width then
      (st, [], true)
    else
      (st, [.sendWindowChange ws.width ws.height], true)
  | .tick none _ => (st, [], true)
  | .tick (some sess) localNow =>
    match st.prevSess, sess with
    | none, s => ({ st with prevSess := s }, [], true)
    | some _, none => ({ st with prevSess := none }, [], true)
    | some p, some s =>
      if p.terminalParams.w = s.terminalParams.w ∧
          p.terminalParams.h = s.terminalParams.h then
        (st, [], true)
      else
        let newSize := s.terminalParams.winsize
        let acts : List ResizeAction :=
          if localNow.width ≠ newSize.width ∨ localNow.height ≠ newSize.height
          then [.setLocalWinsize newSize, .stdoutWrite (resizeEscape newSize)]
          else []
        (⟨localNow, some s⟩, acts, true)
  | .closeSignal => (st, [], false)

/-- Runs the loop over a sequence of triggers, collecting all actions
until the loop exits or the triggers are exhausted. -/
def resizeRun (st : ResizeState) : List ResizeTrigger → List ResizeAction
  | [] => []
  | ev :: rest =>
    let r := resizeStep st ev
    if r.2.2 then r.2.1 ++ resizeRun r.1 rest else r.2.1

/-- Counterexample for C6: the loop's suppression compares the observed
size against its recorded `currentSize`, which it does NOT update when
it sends a window-change request.  Starting from a recorded 80x25, a
SIGWINCH observing 100x30 sends a request for 100x30; a second SIGWINCH
again observing 100x30 — a size equal to the last size the loop itself
sent — sends a second, duplicate request instead of being suppressed. -/
theorem resizeRun_resends_last_sent_size :
    resizeRun ⟨⟨80, 25⟩, none⟩
        [.sigwinch (some ⟨100, 30⟩), .sigwinch (some ⟨100, 30⟩)] =
      [.sendWindowChange 100 30, .sendWindowChange 100 30] := by
  decide

/-- C6 (amended): in response to a window-size-changed signal, the loop
sends no window-change request when the freshly observed size equals
its recorded size (`currentSize`: the size read at loop start, re-read
only by the tick branch) — and a signal iteration never updates the
recorded size, in particular not to the size it sends. -/
theorem resizeStep_sig_suppression (st : ResizeState) (ws : Winsize) :
    ((ws.height = st.currentSize.height ∧ ws.width = st.currentSize.width) →
      resizeStep st (.sigwinch (some ws)) = (st, [], true)) ∧
    (resizeStep st (.sigwinch (some ws))).1 = st := by
  constructor
  · intro h
    simp [resizeStep, h]
  · by_cases h : ws.height = st.currentSize.height ∧
        ws.width = st.currentSize.width
    · simp [resizeStep, h]
    · simp [resizeStep, h]

/-- Witness for C6 (amended) at a concrete input: a no-op SIGWINCH
observing exactly the recorded 80x25 produces no action. -/
theorem resizeStep_sig_suppression_witness :
    resizeStep ⟨⟨80, 25⟩, none⟩ (.sigwinch (some ⟨80, 25⟩)) =
      (⟨⟨80, 25⟩, none⟩, [], true) :=
  (resizeStep_sig_suppression ⟨⟨80, 25⟩, none⟩ ⟨80, 25⟩).1 ⟨rfl, rfl⟩

/-! ## scp: reconciling the two completion signals -/

/-- An error from the transfer, with whether `trace.IsEOF` holds of it
and an identity. -/
structure ScpErr where
  isEOF : Bool
  id : Nat
deriving DecidableEq, Repr

/-- Predicate `trace.IsEOF` lifted to the nilable `err` variable. -/
def isEOFErr : Option ScpErr → Bool
  | some e => e.isEOF
  | none => false

/-- The error reconciliation of `NodeClient.scp` (client.go lines
593-610): `err` is the result of `scpCommand.Execute` (the local
transfer-protocol side, run in its own goroutine; `execErr`), `runErr`
the result of `session.Run` of the remote scp command.  `runErr` is
adopted only when `err` is nil; an end-of-stream `err` is then cleared
to success.  (The Go code reads `err` before waiting on `closeC`; this
model takes the protocol goroutine's result as visible at that read,
the behavior the reconciliation is written for.) -/
def scpReconcile (execErr runErr : Option ScpErr) : Option ScpErr :=
  let err := execErr
  let err := if runErr.isSome && err.isNone then runErr else err
  if isEOFErr err then none else err

/-- C7: a transfer whose protocol side completes with an end-of-stream
error is reported as success even when the remote command's run
simultaneously returns an error; the remote command's error is adopted
only when the protocol side reported no error (any protocol-side error
makes the run error irrelevant to the result). -/
theorem scpReconcile_eof_wins (e r : ScpErr) :
    (e.isEOF = true →
      scpReconcile (some e) (some r) = none ∧
      scpReconcile (some e) none = none) ∧
    scpReconcile none (some r) = (if r.isEOF then none else some r) ∧
    scpReconcile (some e) (some r) = scpReconcile (some e) none := by
  refine ⟨?_, ?_, ?_⟩
  · intro h
    constructor <;> simp [scpReconcile, isEOFErr, h]
  · simp [scpReconcile, isEOFErr]
  · simp [scpReconcile, isEOFErr]

/-- Witness for C7 at concrete inputs: an EOF protocol result plus a
failing remote run is success. -/
theorem scpReconcile_eof_wins_witness :
    scpReconcile (some ⟨true, 0⟩) (some ⟨false, 1⟩) = none :=
  ((scpReconcile_eof_wins ⟨true, 0⟩ ⟨false, 1⟩).1 rfl).1

/-! ## Shell: terminal allocation vs. shell start -/

/-- Order-of-operations events of `NodeClient.Shell`. -/
inductive ShellEvent where
  | allocateTerminal : ShellEvent
  | startShell : ShellEvent
deriving DecidableEq, Repr

/-- A generic collaborator error, by identity. -/
structure GoErr where
  id : Nat
deriving DecidableEq, Repr

/-- The function `NodeClient.Shell` (client.go lines 372-379) with its two
collaborator calls as oracles: `allocateTerminal` returns the pair
`(pipe, err)` — `(allocPipe, allocErr)` here — and
`serverSession.Shell()` returns `shellErr`.  The allocation error is
not examined before the shell-start request: `Shell()` is always
requested; a shell-start error is returned (with a nil pipe) in place
of the allocation error, and the allocation result (pipe and error) is
returned only when the shell start succeeds. -/
def shellStart (allocPipe : Option Nat) (allocErr : Option GoErr)
    (shellErr : Option GoErr) :
    (Option Nat × Option GoErr) × List ShellEvent :=
  match shellErr with
  | some e => ((none, some e), [.allocateTerminal, .startShell])
  | none => ((allocPipe, allocErr), [.allocateTerminal, .startShell])

/-- C8: the shell is started on the server-side session even when
terminal allocation has already failed (the start-shell request appears
in the trace for every allocation outcome); when starting the shell
fails, that error is returned in place of the earlier allocation error;
the allocation error is returned only when the shell start succeeds. -/
theorem shellStart_error_precedence (allocPipe : Option Nat)
    (allocErr : Option GoErr) (shellErr : GoErr) :
    ((shellStart allocPipe allocErr (some shellErr)).2 =
        [.allocateTerminal, .startShell] ∧
      (shellStart allocPipe allocErr none).2 =
        [.allocateTerminal, .startShell]) ∧
    (shellStart allocPipe allocErr (some shellErr)).1 =
      (none, some shellErr) ∧
    (shellStart allocPipe allocErr none).1 = (allocPipe, allocErr) :=
  ⟨⟨rfl, rfl⟩, rfl, rfl⟩

end Teleport
